import Mathlib

/-!
Verification development for the client_outreach cold-outreach automation
system (Python). The definitions below are a shallow embedding of the
repository's source files:

  - src/config.py                   (status constants, rate limits, column mapping, templates)
  - src/services/sheets_service.py  (GoogleSheetsService: get_leads, update_lead_status,
                                     get_leads_for_follow_up)
  - src/services/sms_service.py     (SMSService: _check_rate_limit, _validate_phone_number,
                                     send_sms, _personalize_content, check_replies)
  - src/services/email_service.py   (OutlookEmailService: _check_rate_limit, send_email,
                                     _personalize_content, check_responses)
  - src/main.py                     (OutreachAutomation.process_new_leads)

Python strings are modelled as `List Char` (`PyStr`), wall-clock instants as
integer seconds, and provider transports as boolean oracles (success/failure
of the single provider invocation a send makes). I/O (logging, sleeping) has
no observable effect on the properties stated here and is not modelled.
-/

/-- Python strings, modelled as lists of characters. -/
abbrev PyStr := List Char

/-- Convert a Lean string literal into the `PyStr` model. -/
def pys (s : String) : PyStr := s.data

/-- Python `sub in s`: contiguous-substring containment. -/
def pyContains (s sub : PyStr) : Bool := decide (sub <:+: s)

/-- Python `str.lower()` on the ASCII range (all keyword matching in the
source lowers ASCII text). -/
def pyLower (s : PyStr) : PyStr := s.map Char.toLower

/-- Characters Python's `str.strip()` removes (`str.isspace` on ASCII). -/
def isPySpace (c : Char) : Bool :=
  c == ' ' || c == '\t' || c == '\n' || c == '\x0d' || c == '\x0b' || c == '\x0c'

/-- Python `str.strip()`: drop leading and trailing whitespace. -/
def pyStrip (s : PyStr) : PyStr :=
  ((s.dropWhile isPySpace).reverse.dropWhile isPySpace).reverse

/-- Replacement engine behind Python `str.replace(pat, rep)`: scan left to
right, replacing each non-overlapping occurrence of `pat` and continuing
after the replacement text. The fuel argument (instantiated with the input's
length, which bounds the number of scanning steps) keeps the recursion
structural so that the kernel can evaluate the function. -/
def replaceAllFuel (pat rep : PyStr) : Nat → PyStr → PyStr
  | 0, s => s
  | _ + 1, [] => []
  | fuel + 1, c :: rest =>
    if pat ≠ [] ∧ pat.isPrefixOf (c :: rest) then
      rep ++ replaceAllFuel pat rep fuel ((c :: rest).drop pat.length)
    else
      c :: replaceAllFuel pat rep fuel rest

/-- Python `s.replace(pat, rep)` (for the non-empty patterns the source uses). -/
def pyReplace (s pat rep : PyStr) : PyStr := replaceAllFuel pat rep s.length s

/-! ## src/config.py -/

/-- config.STATUS_NEW. -/
def STATUS_NEW : PyStr := pys "New"

/-- config.STATUS_CONTACTED. -/
def STATUS_CONTACTED : PyStr := pys "Contacted"

/-- config.EMAIL_RATE_LIMIT (messages per hour). -/
def EMAIL_RATE_LIMIT : Nat := 50

/-- config.SMS_RATE_LIMIT (messages per hour). -/
def SMS_RATE_LIMIT : Nat := 30

/-- config.FOLLOW_UP_DELAY_DAYS. -/
def FOLLOW_UP_DELAY_DAYS : Nat := 2

/-- config.TRAINER_NAME. -/
def TRAINER_NAME : PyStr := pys "Alex Huynh"

/-- config.BUSINESS_NAME. -/
def BUSINESS_NAME : PyStr := pys "Bay Club"

/-- config.PHONE_NUMBER. -/
def PHONE_NUMBER : PyStr := pys "+1234567890"

/-- config.WEBSITE_URL. -/
def WEBSITE_URL : PyStr := pys "https://bayclubs.com"

/-- config.COLUMN_MAPPING: spreadsheet column index of each lead field
(columns A..H, 0-indexed). -/
def COLUMN_MAPPING (key : String) : Nat :=
  if key = "name" then 0
  else if key = "email" then 1
  else if key = "phone" then 2
  else if key = "status" then 3
  else if key = "date_contacted" then 4
  else if key = "response_received" then 5
  else if key = "follow_up_sent" then 6
  else 7

/-- config.SMS_TEMPLATES: the two SMS templates, keyed 'initial' and
'follow_up' (text abridged to its placeholder-bearing skeleton; no claim
inspects the prose, only which keys exist and which placeholders occur). -/
def SMS_TEMPLATES (key : String) : Option PyStr :=
  if key = "initial" then
    some (pys "\nHi {name}! This is {trainer_name}, personal trainer at {business_name}. FREE 30-min fitness consultation + assessment at our Bay Club facility. Interested? Text YES for more info or STOP to opt out.\n\n- {trainer_name}\n        ")
  else if key = "follow_up" then
    some (pys "\nHi {name}, quick follow-up from {trainer_name} at {business_name}. Still have your FREE consultation + $75 fitness assessment available at Bay Club. Ready? Text YES or STOP to opt out.\n\n- {trainer_name}\n        ")
  else none

/-- config.EMAIL_TEMPLATES: the two email templates, keyed 'initial' and
'follow_up' (text abridged to its structural skeleton: the Subject line and
placeholder-bearing body; no claim inspects the prose). -/
def EMAIL_TEMPLATES (key : String) : Option PyStr :=
  if key = "initial" then
    some (pys "\nSubject: Transform Your Fitness Journey at Bay Club - Free Consultation Available\n\nHi {name},\n\nMy name is {trainer_name}, a certified personal trainer at {business_name}.\n\nBest regards,\n{trainer_name}\n{business_name}\n{phone_number}\n{website_url}\n        ")
  else if key = "follow_up" then
    some (pys "\nSubject: Quick Follow-up - Your Free Fitness Consultation at Bay Club\n\nHi {name},\n\nFollowing up on your complimentary fitness consultation at Bay Club. Reply or text me at {phone_number}.\n\nBest,\n{trainer_name}\n{business_name}\n        ")
  else none

/-! ## Lead records (the dictionaries GoogleSheetsService.get_leads builds) -/

/-- A lead row as `GoogleSheetsService.get_leads` (sheets_service.py:76-89)
returns it: the absolute sheet row plus the eight mapped columns. -/
structure Lead where
  row_number : Nat
  name : PyStr
  email : PyStr
  phone : PyStr
  status : PyStr
  date_contacted : PyStr
  response_received : PyStr
  follow_up_sent : PyStr
  notes : PyStr
deriving DecidableEq

/-- Python `row[j] if len(row) > j else dflt` (sheets_service.py:80-87). -/
def cellOr (row : List PyStr) (j : Nat) (dflt : PyStr) : PyStr := row.getD j dflt

/-- The lead dictionary built for sheet row `i` from cell list `row`
(sheets_service.py:78-88): each field reads its mapped column when present,
missing trailing cells default to the empty string, a missing status
defaults to STATUS_NEW. -/
def mkLead (i : Nat) (row : List PyStr) : Lead :=
  { row_number := i
    name := cellOr row (COLUMN_MAPPING "name") []
    email := cellOr row (COLUMN_MAPPING "email") []
    phone := cellOr row (COLUMN_MAPPING "phone") []
    status := cellOr row (COLUMN_MAPPING "status") STATUS_NEW
    date_contacted := cellOr row (COLUMN_MAPPING "date_contacted") []
    response_received := cellOr row (COLUMN_MAPPING "response_received") []
    follow_up_sent := cellOr row (COLUMN_MAPPING "follow_up_sent") []
    notes := cellOr row (COLUMN_MAPPING "notes") [] }

/-- The loop of `get_leads` over the data rows (sheets_service.py:76-89):
`i` is the absolute sheet row of the head row (`enumerate(values[1:],
start=2)`), rows with fewer than 3 cells are skipped. -/
def getLeadsLoop : Nat → List (List PyStr) → List Lead
  | _, [] => []
  | i, row :: rest =>
    if 3 ≤ row.length then mkLead i row :: getLeadsLoop (i + 1) rest
    else getLeadsLoop (i + 1) rest

/-- `GoogleSheetsService.get_leads` (sheets_service.py:56-99) applied to the
cell grid the Sheets API returned (`values`, header row included): data rows
start at absolute row 2. -/
def getLeads (values : List (List PyStr)) : List Lead :=
  match values with
  | [] => []
  | _headers :: dataRows => getLeadsLoop 2 dataRows

/-! ## Rate limiting (email_service.py:53-66, sms_service.py:35-48) -/

/-- The in-memory rate window each channel sender owns: messages sent in the
current window and the window start (`self.sent_count`, `self.last_reset`,
as seconds on an integer clock). -/
structure RateState where
  sent_count : Nat
  last_reset : Nat
deriving DecidableEq

/-- `_check_rate_limit` (identical in both services up to the limit used):
if more than one hour (3600 s) passed since `last_reset`, reset the counter
and advance the window; then allow iff the counter is strictly below the
limit (the source returns False when `sent_count >= limit`). Returns the
decision and the (possibly reset) state. -/
def checkRateLimit (limit : Nat) (now : Nat) (st : RateState) : Bool × RateState :=
  let st' := if now - st.last_reset > 3600 then RateState.mk 0 now else st
  (decide (st'.sent_count < limit), st')

/-! ## SMSService._validate_phone_number (sms_service.py:50-63) -/

/-- `_validate_phone_number`: strip non-digits, prepend '1' when exactly 10
digits remain, return "+" ++ digits when 11 digits starting with '1', else
fail (the ValueError raise is modelled as `none`). Python's `str.isdigit`
is modelled on ASCII digits. -/
def validatePhoneNumber (phone : PyStr) : Option PyStr :=
  let cleaned := phone.filter Char.isDigit
  let cleaned2 := if cleaned.length = 10 then '1' :: cleaned else cleaned
  if cleaned2.length = 11 ∧ cleaned2.head? = some '1' then some ('+' :: cleaned2)
  else none

/-! ## Template personalization (email_service.py:228-242, sms_service.py:120-133) -/

/-- The `replacements` dict both `_personalize_content` methods build, in
its insertion order. `nameOpt` is the lead dictionary's 'name' entry when
the key is present (`lead_data.get('name', 'there')`); the other four
values come from config. -/
def personalReplacements (nameOpt : Option PyStr) : List (PyStr × PyStr) :=
  [ (pys "{name}", nameOpt.getD (pys "there"))
  , (pys "{trainer_name}", TRAINER_NAME)
  , (pys "{business_name}", BUSINESS_NAME)
  , (pys "{phone_number}", PHONE_NUMBER)
  , (pys "{website_url}", WEBSITE_URL) ]

/-- `OutlookEmailService._personalize_content`: fold `content.replace(
'{key}', value)` over the replacement dict in order. -/
def emailPersonalizeContent (content : PyStr) (nameOpt : Option PyStr) : PyStr :=
  (personalReplacements nameOpt).foldl (fun acc kv => pyReplace acc kv.1 kv.2) content

/-- `SMSService._personalize_content`: the same replacement fold, followed
by `content.strip()`. -/
def smsPersonalizeContent (content : PyStr) (nameOpt : Option PyStr) : PyStr :=
  pyStrip ((personalReplacements nameOpt).foldl (fun acc kv => pyReplace acc kv.1 kv.2) content)

/-! ## Channel send operations (sms_service.py:65-118, email_service.py:134-205) -/

/-- What a send call is observed to do: its boolean return value, the rate
window it leaves behind, and whether the provider transport was invoked. -/
structure SendOutcome where
  ok : Bool
  rate : RateState
  providerCalled : Bool
deriving DecidableEq

/-- `SMSService.send_sms(to_phone, template_type, lead_data)`: check the
rate limit (returning False when denied), validate the phone number and
resolve the template (each raises ValueError, caught by the enclosing
except → return False, provider never invoked), personalize, then invoke
the Twilio transport once; `providerOk` abstracts that single call's
outcome (an exception is caught → return False without incrementing); on
success increment `sent_count` and return True. -/
def sendSMS (providerOk : Bool) (now : Nat) (toPhone : PyStr)
    (templateType : String) (nameOpt : Option PyStr) (st : RateState) : SendOutcome :=
  let chk := checkRateLimit SMS_RATE_LIMIT now st
  if !chk.1 then ⟨false, chk.2, false⟩
  else
    match validatePhoneNumber toPhone with
    | none => ⟨false, chk.2, false⟩
    | some _formatted =>
      match SMS_TEMPLATES templateType with
      | none => ⟨false, chk.2, false⟩
      | some template =>
        let _message := smsPersonalizeContent template nameOpt
        if providerOk then ⟨true, ⟨chk.2.sent_count + 1, chk.2.last_reset⟩, true⟩
        else ⟨false, chk.2, true⟩

/-- Python `template.strip().split('\n')` line split. -/
def splitLines (s : PyStr) : List PyStr := s.splitOn (Char.ofNat 10)

/-- The subject extraction of `send_email` (email_service.py:147-149):
the first stripped-template line starting with 'Subject:', with that prefix
removed and the result stripped. -/
def extractSubject (template : PyStr) : PyStr :=
  let lines := splitLines (pyStrip template)
  let subjectLine := (lines.find? (fun l => (pys "Subject:").isPrefixOf l)).getD []
  pyStrip (pyReplace subjectLine (pys "Subject:") [])

/-- Python `s.find(sub, start)` (first index ≥ start where `sub` occurs,
else -1), for the non-negative starts `send_email` produces. -/
def pyFind (s sub : PyStr) (start : Nat) : Int :=
  match ((List.range (s.length + 1)).filter
      (fun i => start ≤ i && sub.isPrefixOf (s.drop i))).head? with
  | some i => (i : Int)
  | none => -1

/-- The body extraction of `send_email` (email_service.py:152-153):
everything from the newline after 'Subject:' on, stripped (`template.find`
hits on both of the templates in config, so the -1 branch of `find` does
not arise there; a failed find is modelled as taking the whole text). -/
def extractBody (template : PyStr) : PyStr :=
  let subjectAt := pyFind template (pys "Subject:") 0
  let bodyStart := pyFind template (pys "\n") subjectAt.toNat
  pyStrip (template.drop bodyStart.toNat)

/-- `OutlookEmailService.send_email(to_email, template_type, lead_data)`:
check the rate limit (False when denied), resolve the template (a missing
one raises, caught by the enclosing except → False), split out subject and
body, personalize both, then post the message to the Graph sendMail
endpoint once; `providerOk` abstracts that single HTTP call returning 202
(anything else, or an exception, → False without incrementing); on success
increment `sent_count` and return True. -/
def sendEmail (providerOk : Bool) (now : Nat) (_toEmail : PyStr)
    (templateType : String) (nameOpt : Option PyStr) (st : RateState) : SendOutcome :=
  let chk := checkRateLimit EMAIL_RATE_LIMIT now st
  if !chk.1 then ⟨false, chk.2, false⟩
  else
    match EMAIL_TEMPLATES templateType with
    | none => ⟨false, chk.2, false⟩
    | some template =>
      let _subject := emailPersonalizeContent (extractSubject template) nameOpt
      let _body := emailPersonalizeContent (extractBody template) nameOpt
      if providerOk then ⟨true, ⟨chk.2.sent_count + 1, chk.2.last_reset⟩, true⟩
      else ⟨false, chk.2, true⟩

/-! ## Reply classification (sms_service.py:151-191, email_service.py:244-296) -/

/-- The classification labels the two reply scanners attach (`reply['type']`):
SMSService.check_replies uses opt_out / positive / reply, OutlookEmailService
.check_responses uses unsubscribe / interested. -/
inductive ReplyType where
  | opt_out
  | positive
  | reply
  | unsubscribe
  | interested
deriving DecidableEq

/-- sms_service.py:169 `opt_out_keywords`. -/
def smsOptOutKeywords : List PyStr :=
  [pys "stop", pys "unsubscribe", pys "opt out", pys "remove", pys "quit"]

/-- sms_service.py:173 `positive_keywords`. -/
def smsPositiveKeywords : List PyStr :=
  [pys "yes", pys "interested", pys "tell me more", pys "info"]

/-- The per-message classification of `SMSService.check_replies`
(sms_service.py:165-176): lowercase the body, opt-out keywords first, then
positive keywords, else a plain reply. Total: every fetched message is
appended with some type. -/
def smsClassify (body : PyStr) : ReplyType :=
  let b := pyLower body
  let isOptOut := smsOptOutKeywords.any (fun kw => pyContains b kw)
  let isPositive := smsPositiveKeywords.any (fun kw => pyContains b kw)
  if isOptOut then .opt_out else if isPositive then .positive else .reply

/-- email_service.py:273 unsubscribe keyword list. -/
def emailUnsubKeywords : List PyStr := [pys "unsubscribe", pys "remove", pys "stop"]

/-- The per-message classification of `OutlookEmailService.check_responses`
(email_service.py:267-286): lowercase subject and body; a keyword of
{unsubscribe, remove, stop} in either → unsubscribe; else 'yes' or
'interested' in the body → interested; else the message is not appended to
the result at all (modelled as `none`). -/
def emailClassify (subject body : PyStr) : Option ReplyType :=
  let s := pyLower subject
  let b := pyLower body
  if emailUnsubKeywords.any (fun kw => pyContains s kw || pyContains b kw) then
    some .unsubscribe
  else if pyContains b (pys "yes") || pyContains b (pys "interested") then
    some .interested
  else none

/-! ## Date parsing (datetime.strptime(date, '%Y-%m-%d %H:%M:%S') in
sheets_service.py:251, and the timedelta arithmetic at line 252) -/

/-- The numeric value of an ASCII digit character, else `none`. -/
def digitVal (c : Char) : Option Nat :=
  if c.isDigit then some (c.toNat - 48) else none

/-- One 1-or-2-digit numeric field as CPython's `_strptime` regexes read it
(month `1[0-2]|0[1-9]|[1-9]`, day `3[01]|[12]\d|0[1-9]|[1-9]`, hour
`2[0-3]|[0-1]\d|\d`, minute `[0-5]\d|\d`, second `6[01]|[0-5]\d|\d`): take
two digits when their value lies in `lo..hi`, else one digit when its value
is at least `lo`. -/
def parseField (lo hi : Nat) : PyStr → Option (Nat × PyStr)
  | [] => none
  | [c1] =>
    match digitVal c1 with
    | some d1 => if lo ≤ d1 then some (d1, []) else none
    | none => none
  | c1 :: c2 :: rest =>
    match digitVal c1, digitVal c2 with
    | some d1, some d2 =>
      let v := 10 * d1 + d2
      if lo ≤ v ∧ v ≤ hi then some (v, rest)
      else if lo ≤ d1 then some (d1, c2 :: rest) else none
    | some d1, none => if lo ≤ d1 then some (d1, c2 :: rest) else none
    | none, _ => none

/-- The `%Y` field: exactly four digits. -/
def parseYear : PyStr → Option (Nat × PyStr)
  | a :: b :: c :: d :: rest =>
    match digitVal a, digitVal b, digitVal c, digitVal d with
    | some x, some y, some z, some w => some (1000 * x + 100 * y + 10 * z + w, rest)
    | _, _, _, _ => none
  | _ => none

/-- Consume one expected literal character of the format string. -/
def expectChar (c : Char) : PyStr → Option PyStr
  | x :: rest => if x = c then some rest else none
  | [] => none

/-- Gregorian leap year (as `calendar.isleap` / `datetime` use it). -/
def isLeapYear (y : Nat) : Bool :=
  (y % 4 == 0 && y % 100 != 0) || y % 400 == 0

/-- Days in a month of the proleptic Gregorian calendar. -/
def daysInMonth (y m : Nat) : Nat :=
  if m = 2 then (if isLeapYear y then 29 else 28)
  else if m = 4 ∨ m = 6 ∨ m = 9 ∨ m = 11 then 30
  else 31

/-- Days from 1970-01-01 to the civil date y-m-d (proleptic Gregorian;
the standard days-from-civil computation, floor division throughout). -/
def daysFromCivil (y m d : Int) : Int :=
  let y' := y - (if m ≤ 2 then 1 else 0)
  let era := Int.fdiv y' 400
  let yoe := y' - era * 400
  let doy := Int.fdiv (153 * (m + (if m > 2 then -3 else 9)) + 2) 5 + d - 1
  let doe := yoe * 365 + Int.fdiv yoe 4 - Int.fdiv yoe 100 + doy
  era * 146097 + doe - 719468

/-- A parsed datetime as integer seconds since 1970-01-01 00:00:00. -/
def toEpochSeconds (y m d h mi s : Nat) : Int :=
  daysFromCivil (y : Int) (m : Int) (d : Int) * 86400
    + (h : Int) * 3600 + (mi : Int) * 60 + (s : Int)

/-- `datetime.strptime(text, '%Y-%m-%d %H:%M:%S')`: the format must consume
the whole text, and the `datetime` constructor then validates the day
against the month's length, year ≥ 1 and second ≤ 59 (the `%S` regex alone
would admit 60 and 61). A ValueError is modelled as `none`. -/
def parseDateTime (text : PyStr) : Option Int := do
  let (y, r1) ← parseYear text
  let r2 ← expectChar '-' r1
  let (mo, r3) ← parseField 1 12 r2
  let r4 ← expectChar '-' r3
  let (d, r5) ← parseField 1 31 r4
  let r6 ← expectChar ' ' r5
  let (h, r7) ← parseField 0 23 r6
  let r8 ← expectChar ':' r7
  let (mi, r9) ← parseField 0 59 r8
  let r10 ← expectChar ':' r9
  let (s, r11) ← parseField 0 61 r10
  if r11 = [] ∧ 1 ≤ y ∧ d ≤ daysInMonth y mo ∧ s ≤ 59 then
    some (toEpochSeconds y mo d h mi s)
  else none

/-! ## GoogleSheetsService.get_leads_for_follow_up (sheets_service.py:237-270) -/

/-- The loop of `get_leads_for_follow_up` over `self.get_leads()`: keep a
lead when its status is Contacted, `follow_up_sent` is falsy (empty),
`date_contacted` is truthy (non-empty) and parses, and
`(datetime.now() - contact_date).days >= days_since_contact` (timedelta
`.days` is floor division of the signed difference by 86400 s). A
ValueError from strptime is caught and the lead skipped. `now` is
`datetime.now()` in epoch seconds. -/
def followUpLoop (now : Int) (daysSinceContact : Int) : List Lead → List Lead
  | [] => []
  | lead :: rest =>
    if lead.status = STATUS_CONTACTED ∧ lead.follow_up_sent = [] ∧ lead.date_contacted ≠ [] then
      match parseDateTime lead.date_contacted with
      | some t =>
        if Int.fdiv (now - t) 86400 ≥ daysSinceContact then
          lead :: followUpLoop now daysSinceContact rest
        else followUpLoop now daysSinceContact rest
      | none => followUpLoop now daysSinceContact rest
    else followUpLoop now daysSinceContact rest

/-- `GoogleSheetsService.get_leads_for_follow_up(days_since_contact=2)`
applied to the cell grid `values` the sheet holds (the source starts from
`self.get_leads()`). -/
def getLeadsForFollowUp (now : Int) (daysSinceContact : Int)
    (values : List (List PyStr)) : List Lead :=
  followUpLoop now daysSinceContact (getLeads values)

/-! ## GoogleSheetsService.update_lead_status (sheets_service.py:101-161) -/

/-- The backing spreadsheet as a cell map: row number → column index →
cell text. -/
def Sheet : Type := Nat → Nat → PyStr

/-- One value write of the batchUpdate body (a single-cell range). -/
def writeCell (sh : Sheet) (row col : Nat) (v : PyStr) : Sheet :=
  fun r c => if r = row ∧ c = col then v else sh r c

/-- `update_lead_status(row_number, status, notes="")`: the batch update
always writes the status column and the notes column (the Python default
`""` when the caller omits notes), and additionally writes
`datetime.now().strftime('%Y-%m-%d %H:%M:%S')` into the date_contacted
column when the new status equals STATUS_CONTACTED. `nowStr` stands for
that formatted timestamp; the transport success path is modelled (on
HttpError the method returns False leaving this model's store unchanged). -/
def updateLeadStatus (sh : Sheet) (rowNumber : Nat) (status : PyStr)
    (notes : PyStr) (nowStr : PyStr) : Sheet :=
  let sh1 := writeCell sh rowNumber (COLUMN_MAPPING "status") status
  let sh2 := writeCell sh1 rowNumber (COLUMN_MAPPING "notes") notes
  if status = STATUS_CONTACTED then
    writeCell sh2 rowNumber (COLUMN_MAPPING "date_contacted") nowStr
  else sh2

/-! ## OutreachAutomation.process_new_leads (main.py:47-107)

main.py drives the run through four lead-store methods that
src/services/sheets_service.py does not define (`create_backup`,
`get_leads_by_status`, `mark_contacted`) and one email-service method it
lacks (`send_initial_email`); those are modelled from the spec below, each
marked so in its doc comment. -/

/-- Modelled from the spec: `get_leads_by_status(status)` is called by
main.py:57 but absent from src/services/sheets_service.py; spec section 4.3
defines it as a case-insensitive status filter over all leads. -/
def getLeadsByStatus (status : PyStr) (store : List Lead) : List Lead :=
  store.filter (fun l => pyLower l.status = pyLower status)

/-- Modelled from the spec: `mark_contacted(row, channel)` is called by
main.py:79/91 but absent from src/services/sheets_service.py; spec section
4.3 defines it as a convenience wrapper that sets status Contacted, the
contact timestamp and a human-readable note naming the channel, in one
call. `nowStr` is the formatted current time. -/
def markContacted (rowNumber : Nat) (channel : PyStr) (nowStr : PyStr)
    (store : List Lead) : List Lead :=
  store.map (fun l =>
    if l.row_number = rowNumber then
      { l with status := STATUS_CONTACTED, date_contacted := nowStr,
               notes := pys "Contacted via " ++ channel }
    else l)

/-- Modelled from the spec: `create_backup()` is called by main.py:53 but
absent from src/services/sheets_service.py; spec sections 4.3 and 6 define
it as serializing the full current lead set to a timestamped snapshot file
before any destructive run, with a failure aborting the run. `ok`
abstracts filesystem success; the snapshot returned is the serialized
lead set. -/
def createBackup (ok : Bool) (store : List Lead) : Option (List Lead) :=
  if ok then some store else none

/-- The environment of one processing run: the provider transports' outcomes
and the wall clock. -/
structure Env where
  emailProviderOk : Bool
  smsProviderOk : Bool
  backupOk : Bool
  now : Nat
  nowStr : PyStr

/-- The mutable state a run touches: the lead store and each channel
sender's rate window. -/
structure SysState where
  store : List Lead
  emailRate : RateState
  smsRate : RateState
deriving DecidableEq

/-- The run statistics dict of `process_new_leads`. -/
structure Stats where
  processed : Nat
  email_sent : Nat
  sms_sent : Nat
  errors : Nat
deriving DecidableEq

/-- Observable side effects of a run, in program order: the backup snapshot
write, each provider transport invocation, each lead-store write. -/
inductive Event where
  | backup (snapshot : List Lead)
  | emailSendCall (recipient : PyStr)
  | smsSendCall (recipient : PyStr)
  | storeWrite (rowNumber : Nat)

/-- The per-lead body of the `process_new_leads` loop (main.py:67-104):
email branch when not sms_only and the lead has an email (send initial
email; on success count email_sent and mark Contacted via Email, else count
an error), then SMS branch when not email_only and the lead has a phone
(send initial SMS; on success count sms_sent and mark Contacted via SMS
only when the lead has no email or sms_only is set, else count an error),
then count the lead processed. `send_initial_email(lead)` is modelled from
the spec as the email-channel send of the 'initial' template to the lead's
address (the method is absent from src/services/email_service.py);
`send_initial_sms` is sms_service.py:135-141. -/
def processLead (env : Env) (emailOnly smsOnly : Bool) (lead : Lead)
    (st : SysState) (stats : Stats) : SysState × Stats × List Event :=
  let emailStep :=
    if ¬ smsOnly ∧ lead.email ≠ [] then
      let out := sendEmail env.emailProviderOk env.now lead.email "initial"
        (some lead.name) st.emailRate
      let evs := if out.providerCalled then [Event.emailSendCall lead.email] else []
      if out.ok then
        ({ st with emailRate := out.rate,
                   store := markContacted lead.row_number (pys "Email") env.nowStr st.store },
         { stats with email_sent := stats.email_sent + 1 },
         evs ++ [Event.storeWrite lead.row_number])
      else
        ({ st with emailRate := out.rate },
         { stats with errors := stats.errors + 1 }, evs)
    else (st, stats, [])
  let st1 := emailStep.1
  let stats1 := emailStep.2.1
  let evs1 := emailStep.2.2
  let smsStep :=
    if ¬ emailOnly ∧ lead.phone ≠ [] then
      let out := sendSMS env.smsProviderOk env.now lead.phone "initial"
        (some lead.name) st1.smsRate
      let evs := if out.providerCalled then [Event.smsSendCall lead.phone] else []
      if out.ok then
        if lead.email = [] ∨ smsOnly then
          ({ st1 with smsRate := out.rate,
                      store := markContacted lead.row_number (pys "SMS") env.nowStr st1.store },
           { stats1 with sms_sent := stats1.sms_sent + 1 },
           evs ++ [Event.storeWrite lead.row_number])
        else
          ({ st1 with smsRate := out.rate },
           { stats1 with sms_sent := stats1.sms_sent + 1 }, evs)
      else
        ({ st1 with smsRate := out.rate },
         { stats1 with errors := stats1.errors + 1 }, evs)
    else (st1, stats1, [])
  let st2 := smsStep.1
  let stats2 := smsStep.2.1
  let evs2 := smsStep.2.2
  (st2, { stats2 with processed := stats2.processed + 1 }, evs1 ++ evs2)

/-- The `for lead in new_leads` loop of `process_new_leads`. -/
def processNewLeadsLoop (env : Env) (emailOnly smsOnly : Bool) :
    List Lead → SysState → Stats → SysState × Stats × List Event
  | [], st, stats => (st, stats, [])
  | lead :: rest, st, stats =>
    let step := processLead env emailOnly smsOnly lead st stats
    let next := processNewLeadsLoop env emailOnly smsOnly rest step.1 step.2.1
    (next.1, next.2.1, step.2.2 ++ next.2.2)

/-- The outcome of one `process_new_leads` run: the returned statistics
(`none` when the run raised, as it does when the backup fails), the final
state and the event trace. -/
structure RunResult where
  result : Option Stats
  state : SysState
  events : List Event

/-- `OutreachAutomation.process_new_leads(email_only, sms_only)`
(main.py:47-107): create a backup first (a failure there propagates out of
the method before any lead is read or contacted), fetch the leads with
status New, return zero statistics when there are none, else run the
per-lead loop and return the accumulated statistics. -/
def processNewLeads (env : Env) (emailOnly smsOnly : Bool) (st : SysState) : RunResult :=
  match createBackup env.backupOk st.store with
  | none => { result := none, state := st, events := [] }
  | some snapshot =>
    let newLeads := getLeadsByStatus STATUS_NEW st.store
    if newLeads = [] then
      { result := some ⟨0, 0, 0, 0⟩, state := st, events := [Event.backup snapshot] }
    else
      let run := processNewLeadsLoop env emailOnly smsOnly newLeads st ⟨0, 0, 0, 0⟩
      { result := some run.2.1, state := run.1,
        events := Event.backup snapshot :: run.2.2 }

/-! ## Concrete instantiations used by counterexamples and witnesses -/

/-- The sheet row of the lead used to refute C2: status Contacted, a
response already on file, no follow-up recorded, contacted 2024-03-01. -/
def c2Row : List PyStr :=
  [pys "Taylor", pys "t@example.com", pys "", pys "Contacted",
   pys "2024-03-01 10:00:00", pys "Yes, call me", pys "", pys ""]

/-- The backing sheet used to refute C5: row 2 holds the note "keep me". -/
def c5Sheet : Sheet := fun r c => if r = 2 ∧ c = 7 then pys "keep me" else []

/-- C1 witness instantiation: an email-only lead in row 2. -/
def wLead1 : Lead :=
  { row_number := 2, name := pys "Ann", email := pys "ann@example.com",
    phone := [], status := pys "New", date_contacted := [],
    response_received := [], follow_up_sent := [], notes := [] }

/-- C1 witness instantiation: a phone-only lead in row 3. -/
def wLead2 : Lead :=
  { row_number := 3, name := pys "Bo", email := [],
    phone := pys "4155551234", status := pys "New", date_contacted := [],
    response_received := [], follow_up_sent := [], notes := [] }

/-- C1 witness instantiation: backup and both providers succeed. -/
def wEnv : Env :=
  { emailProviderOk := true, smsProviderOk := true, backupOk := true,
    now := 0, nowStr := pys "2024-03-05 12:00:00" }

/-- C1 witness instantiation: the two leads with fresh rate windows. -/
def wState : SysState :=
  { store := [wLead1, wLead2], emailRate := ⟨0, 0⟩, smsRate := ⟨0, 0⟩ }

/-! ## Helper lemmas -/

/-- Replacing a pattern that does not occur leaves the text unchanged. -/
theorem replaceAllFuel_not_occurs (pat rep : PyStr) :
    ∀ (fuel : Nat) (s : PyStr), ¬ pat <:+: s → replaceAllFuel pat rep fuel s = s := by
  intro fuel
  induction fuel with
  | zero => intro s _; rfl
  | succ n ih =>
    intro s hs
    match s with
    | [] => rfl
    | c :: rest =>
      rw [replaceAllFuel]
      rw [if_neg]
      · rw [ih rest (fun h => hs (List.infix_cons h))]
      · rintro ⟨_hne, hpre⟩
        exact hs (List.IsPrefix.isInfix (List.isPrefixOf_iff_prefix.mp hpre))

/-- `pyReplace` with an absent pattern is the identity. -/
theorem pyReplace_not_occurs (s pat rep : PyStr) (h : ¬ pat <:+: s) :
    pyReplace s pat rep = s :=
  replaceAllFuel_not_occurs pat rep s.length s h

/-- The status column is column D (index 3). -/
theorem COLUMN_MAPPING_status : COLUMN_MAPPING "status" = 3 := rfl

/-- The notes column is column H (index 7). -/
theorem COLUMN_MAPPING_notes : COLUMN_MAPPING "notes" = 7 := rfl

/-- The date_contacted column is column E (index 4). -/
theorem COLUMN_MAPPING_date : COLUMN_MAPPING "date_contacted" = 4 := rfl

/-- The name column is column A (index 0). -/
theorem COLUMN_MAPPING_name : COLUMN_MAPPING "name" = 0 := rfl

/-- The email column is column B (index 1). -/
theorem COLUMN_MAPPING_email : COLUMN_MAPPING "email" = 1 := rfl

/-- The phone column is column C (index 2). -/
theorem COLUMN_MAPPING_phone : COLUMN_MAPPING "phone" = 2 := rfl

/-- The response_received column is column F (index 5). -/
theorem COLUMN_MAPPING_response : COLUMN_MAPPING "response_received" = 5 := rfl

/-- The follow_up_sent column is column G (index 6). -/
theorem COLUMN_MAPPING_follow : COLUMN_MAPPING "follow_up_sent" = 6 := rfl

/-! ## Claim theorems -/

/-- C7: the rate-limit check returns true iff the send count within the
current one-hour window is strictly below the hourly limit; on a check made
more than one hour after window_start the counter resets to zero and
window_start advances to now (and is untouched otherwise); consequently at
count = limit the next check in the same window returns false, and a check
after the window has elapsed (for a positive limit) returns true again. -/
theorem checkRateLimit_spec (limit now : Nat) (st : RateState) :
    ((checkRateLimit limit now st).1 = true ↔
      (checkRateLimit limit now st).2.sent_count < limit) ∧
    (now - st.last_reset > 3600 →
      (checkRateLimit limit now st).2 = RateState.mk 0 now) ∧
    (now - st.last_reset ≤ 3600 → (checkRateLimit limit now st).2 = st) ∧
    (st.sent_count = limit ∧ now - st.last_reset ≤ 3600 →
      (checkRateLimit limit now st).1 = false) ∧
    (now - st.last_reset > 3600 ∧ 0 < limit →
      (checkRateLimit limit now st).1 = true) := by
  unfold checkRateLimit
  by_cases h : now - st.last_reset > 3600
  · refine ⟨?_, fun _ => ?_, fun hc => absurd h (not_lt.mpr hc),
      fun hc => absurd h (not_lt.mpr hc.2), fun hc => ?_⟩
    · simp [h]
    · simp [h]
    · simp [h, hc.2]
  · refine ⟨?_, fun hc => absurd hc h, fun _ => ?_, fun hc => ?_,
      fun hc => absurd hc.1 h⟩
    · simp [h]
    · simp [h]
    · simp [h, hc.1]

/-- C8: SMS phone normalization strips all non-digit characters, prepends
country code '1' when exactly 10 digits remain, and succeeds with "+"
followed by the digits exactly when the result is 11 digits starting with
'1' (failing otherwise); the spec's three examples hold; and a failed
normalization inside `send_sms` means the provider transport is never
invoked. -/
theorem validatePhoneNumber_spec (phone r : PyStr) (providerOk : Bool)
    (now : Nat) (templateType : String) (nameOpt : Option PyStr) (st : RateState) :
    (validatePhoneNumber phone = some r ↔
      ((if (phone.filter Char.isDigit).length = 10 then '1' :: phone.filter Char.isDigit
        else phone.filter Char.isDigit).length = 11 ∧
       (if (phone.filter Char.isDigit).length = 10 then '1' :: phone.filter Char.isDigit
        else phone.filter Char.isDigit).head? = some '1' ∧
       r = '+' :: (if (phone.filter Char.isDigit).length = 10 then '1' :: phone.filter Char.isDigit
        else phone.filter Char.isDigit))) ∧
    validatePhoneNumber (pys "(415) 555-1234") = some (pys "+14155551234") ∧
    validatePhoneNumber (pys "14155551234") = some (pys "+14155551234") ∧
    validatePhoneNumber (pys "123") = none ∧
    (validatePhoneNumber phone = none →
      (sendSMS providerOk now phone templateType nameOpt st).providerCalled = false) := by
  refine ⟨?_, by decide, by decide, by decide, ?_⟩
  · simp only [validatePhoneNumber]
    by_cases h : (if (phone.filter Char.isDigit).length = 10 then '1' :: phone.filter Char.isDigit
        else phone.filter Char.isDigit).length = 11 ∧
        (if (phone.filter Char.isDigit).length = 10 then '1' :: phone.filter Char.isDigit
        else phone.filter Char.isDigit).head? = some '1'
    · rw [if_pos h]
      constructor
      · intro he
        exact ⟨h.1, h.2, (Option.some_inj.mp he).symm⟩
      · intro he
        rw [he.2.2]
    · rw [if_neg h]
      constructor
      · intro he; simp at he
      · intro he; exact absurd ⟨he.1, he.2.1⟩ h
  · intro hv
    unfold sendSMS
    by_cases hc : (checkRateLimit SMS_RATE_LIMIT now st).1
    · simp only [hc, Bool.not_true, Bool.false_eq_true, if_false, hv]
    · simp only [Bool.not_eq_true'] at hc
      simp [hc]

/-- C6: for both channel senders, a rate-limiter denial makes the send
return false without the provider being contacted; when the provider
transport is invoked and succeeds, the rate counter is incremented by one
(relative to the post-check window) and the call returns true; when the
transport is invoked and fails, the call returns false without incrementing;
and any false return leaves the counter unincremented (the Python code
converts every provider or transport exception into a False return). -/
theorem send_contract (providerOk : Bool) (now : Nat) (toPhone toEmail : PyStr)
    (templateType : String) (nameOpt : Option PyStr) (st : RateState) :
    (((checkRateLimit SMS_RATE_LIMIT now st).1 = false →
        sendSMS providerOk now toPhone templateType nameOpt st =
          ⟨false, (checkRateLimit SMS_RATE_LIMIT now st).2, false⟩) ∧
     ((sendSMS providerOk now toPhone templateType nameOpt st).providerCalled = true ∧
        providerOk = true →
        (sendSMS providerOk now toPhone templateType nameOpt st).ok = true ∧
        (sendSMS providerOk now toPhone templateType nameOpt st).rate.sent_count =
          (checkRateLimit SMS_RATE_LIMIT now st).2.sent_count + 1) ∧
     ((sendSMS providerOk now toPhone templateType nameOpt st).providerCalled = true ∧
        providerOk = false →
        (sendSMS providerOk now toPhone templateType nameOpt st).ok = false) ∧
     ((sendSMS providerOk now toPhone templateType nameOpt st).ok = false →
        (sendSMS providerOk now toPhone templateType nameOpt st).rate =
          (checkRateLimit SMS_RATE_LIMIT now st).2)) ∧
    (((checkRateLimit EMAIL_RATE_LIMIT now st).1 = false →
        sendEmail providerOk now toEmail templateType nameOpt st =
          ⟨false, (checkRateLimit EMAIL_RATE_LIMIT now st).2, false⟩) ∧
     ((sendEmail providerOk now toEmail templateType nameOpt st).providerCalled = true ∧
        providerOk = true →
        (sendEmail providerOk now toEmail templateType nameOpt st).ok = true ∧
        (sendEmail providerOk now toEmail templateType nameOpt st).rate.sent_count =
          (checkRateLimit EMAIL_RATE_LIMIT now st).2.sent_count + 1) ∧
     ((sendEmail providerOk now toEmail templateType nameOpt st).providerCalled = true ∧
        providerOk = false →
        (sendEmail providerOk now toEmail templateType nameOpt st).ok = false) ∧
     ((sendEmail providerOk now toEmail templateType nameOpt st).ok = false →
        (sendEmail providerOk now toEmail templateType nameOpt st).rate =
          (checkRateLimit EMAIL_RATE_LIMIT now st).2)) := by
  constructor
  · unfold sendSMS
    by_cases hc : (checkRateLimit SMS_RATE_LIMIT now st).1
    · simp only [hc, Bool.not_true, Bool.false_eq_true, if_false]
      cases hv : validatePhoneNumber toPhone with
      | none => simp [hc]
      | some f =>
        cases ht : SMS_TEMPLATES templateType with
        | none => simp [hc]
        | some tpl => cases providerOk <;> simp [hc]
    · simp only [Bool.not_eq_true'] at hc
      simp [hc]
  · unfold sendEmail
    by_cases hc : (checkRateLimit EMAIL_RATE_LIMIT now st).1
    · simp only [hc, Bool.not_true, Bool.false_eq_true, if_false]
      cases ht : EMAIL_TEMPLATES templateType with
      | none => simp [hc]
      | some tpl => cases providerOk <;> simp [hc]
    · simp only [Bool.not_eq_true'] at hc
      simp [hc]

/-- C9 counterexample: the SMS renderer is not "no other change to the
text": on the token-free template " ok " it strips the surrounding
whitespace, so the output differs from the input that the claim requires
to be left untouched. -/
theorem personalize_counterexample :
    smsPersonalizeContent (pys " ok ") (some (pys "Sam")) = pys "ok" ∧
    pys "ok" ≠ pys " ok " := by decide

/-- C9 amended: both renderers substitute the five recognized tokens by the
same sequential replace-all pass (name, then trainer_name, business_name,
phone_number, website_url), the SMS renderer being exactly the email
renderer followed by a whitespace strip; a template containing none of the
five tokens is returned verbatim by the email renderer; and on the spec's
example every occurrence of the known tokens is replaced. -/
theorem personalize_amended (content : PyStr) (nameOpt : Option PyStr) :
    (smsPersonalizeContent content nameOpt =
      pyStrip (emailPersonalizeContent content nameOpt)) ∧
    ((∀ kv ∈ personalReplacements nameOpt, ¬ kv.1 <:+: content) →
      emailPersonalizeContent content nameOpt = content) ∧
    emailPersonalizeContent (pys "Hi {name}, from {trainer_name}") (some (pys "Sam")) =
      pys "Hi Sam, from Alex Huynh" := by
  refine ⟨rfl, ?_, by decide⟩
  intro h
  simp only [personalReplacements, List.forall_mem_cons, List.forall_mem_nil] at h
  obtain ⟨h1, h2, h3, h4, h5, -⟩ := h
  unfold emailPersonalizeContent personalReplacements
  simp only [List.foldl_cons, List.foldl_nil]
  rw [pyReplace_not_occurs _ _ _ h1, pyReplace_not_occurs _ _ _ h2,
    pyReplace_not_occurs _ _ _ h3, pyReplace_not_occurs _ _ _ h4,
    pyReplace_not_occurs _ _ _ h5]

/-- C3 counterexample: an inbound email whose text matches no keyword
("ok thanks") receives no classification at all from check_responses (the
claim requires it be classified as a plain reply), and an inbound SMS
"please quit" is classified opt_out although it contains none of the
claim's opt-out keywords {unsubscribe, remove, stop} ("quit" is a fourth
keyword of the code). -/
theorem reply_classification_counterexample :
    emailClassify (pys "re hello") (pys "ok thanks") = none ∧
    smsClassify (pys "please quit") = ReplyType.opt_out := by decide

/-- C3 amended: SMS replies are totally classified, opt-out first against
the keyword set {stop, unsubscribe, opt out, remove, quit}, then positive
against {yes, interested, tell me more, info}, else plain reply; email
messages are classified unsubscribe when {unsubscribe, remove, stop} hits
the lowercased subject or body, else interested when 'yes' or 'interested'
occurs in the body, and otherwise receive no classification (they are
dropped from the result, not labelled as plain replies). All matching is
case-insensitive substring containment. -/
theorem reply_classification_amended (subject body : PyStr) :
    (smsClassify body = ReplyType.opt_out ↔
      ∃ kw ∈ smsOptOutKeywords, kw <:+: pyLower body) ∧
    (smsClassify body = ReplyType.positive ↔
      (¬ (∃ kw ∈ smsOptOutKeywords, kw <:+: pyLower body) ∧
       ∃ kw ∈ smsPositiveKeywords, kw <:+: pyLower body)) ∧
    (smsClassify body = ReplyType.reply ↔
      (¬ (∃ kw ∈ smsOptOutKeywords, kw <:+: pyLower body) ∧
       ¬ (∃ kw ∈ smsPositiveKeywords, kw <:+: pyLower body))) ∧
    (emailClassify subject body = some ReplyType.unsubscribe ↔
      ∃ kw ∈ emailUnsubKeywords, (kw <:+: pyLower subject ∨ kw <:+: pyLower body)) ∧
    (emailClassify subject body = some ReplyType.interested ↔
      (¬ (∃ kw ∈ emailUnsubKeywords, (kw <:+: pyLower subject ∨ kw <:+: pyLower body)) ∧
       (pys "yes" <:+: pyLower body ∨ pys "interested" <:+: pyLower body))) ∧
    (emailClassify subject body = none ↔
      (¬ (∃ kw ∈ emailUnsubKeywords, (kw <:+: pyLower subject ∨ kw <:+: pyLower body)) ∧
       ¬ (pys "yes" <:+: pyLower body ∨ pys "interested" <:+: pyLower body))) := by
  unfold smsClassify emailClassify pyContains
  by_cases ho : ∃ kw ∈ smsOptOutKeywords, kw <:+: pyLower body
  · have hb : smsOptOutKeywords.any (fun kw => decide (kw <:+: pyLower body)) = true := by
      simpa [List.any_eq_true] using ho
    by_cases hu : ∃ kw ∈ emailUnsubKeywords,
        (kw <:+: pyLower subject ∨ kw <:+: pyLower body)
    · have hbu : emailUnsubKeywords.any
          (fun kw => decide (kw <:+: pyLower subject) || decide (kw <:+: pyLower body)) = true := by
        simpa [List.any_eq_true] using hu
      simp [hb, hbu, ho, hu]
    · have hbu : emailUnsubKeywords.any
          (fun kw => decide (kw <:+: pyLower subject) || decide (kw <:+: pyLower body)) = false := by
        simpa [List.any_eq_true] using hu
      by_cases hy : pys "yes" <:+: pyLower body ∨ pys "interested" <:+: pyLower body
      · simp [hb, hbu, ho, hu, hy]
      · simp [hb, hbu, ho, hu, hy]
  · have hb : smsOptOutKeywords.any (fun kw => decide (kw <:+: pyLower body)) = false := by
      simpa [List.any_eq_true] using ho
    have hp' := fun (hp : ∃ kw ∈ smsPositiveKeywords, kw <:+: pyLower body) =>
      (by simpa [List.any_eq_true] using hp :
        smsPositiveKeywords.any (fun kw => decide (kw <:+: pyLower body)) = true)
    by_cases hp : ∃ kw ∈ smsPositiveKeywords, kw <:+: pyLower body
    · have hbp := hp' hp
      by_cases hu : ∃ kw ∈ emailUnsubKeywords,
          (kw <:+: pyLower subject ∨ kw <:+: pyLower body)
      · have hbu : emailUnsubKeywords.any
            (fun kw => decide (kw <:+: pyLower subject) || decide (kw <:+: pyLower body)) = true := by
          simpa [List.any_eq_true] using hu
        simp [hb, hbp, hbu, ho, hp, hu]
      · have hbu : emailUnsubKeywords.any
            (fun kw => decide (kw <:+: pyLower subject) || decide (kw <:+: pyLower body)) = false := by
          simpa [List.any_eq_true] using hu
        by_cases hy : pys "yes" <:+: pyLower body ∨ pys "interested" <:+: pyLower body
        · simp [hb, hbp, hbu, ho, hp, hu, hy]
        · simp [hb, hbp, hbu, ho, hp, hu, hy]
    · have hbp : smsPositiveKeywords.any (fun kw => decide (kw <:+: pyLower body)) = false := by
        simpa [List.any_eq_true] using hp
      by_cases hu : ∃ kw ∈ emailUnsubKeywords,
          (kw <:+: pyLower subject ∨ kw <:+: pyLower body)
      · have hbu : emailUnsubKeywords.any
            (fun kw => decide (kw <:+: pyLower subject) || decide (kw <:+: pyLower body)) = true := by
          simpa [List.any_eq_true] using hu
        simp [hb, hbp, hbu, ho, hp, hu]
      · have hbu : emailUnsubKeywords.any
            (fun kw => decide (kw <:+: pyLower subject) || decide (kw <:+: pyLower body)) = false := by
          simpa [List.any_eq_true] using hu
        by_cases hy : pys "yes" <:+: pyLower body ∨ pys "interested" <:+: pyLower body
        · simp [hb, hbp, hbu, ho, hp, hu, hy]
        · simp [hb, hbp, hbu, ho, hp, hu, hy]

/-- Membership in the follow-up loop's output: a lead of the input list that
is Contacted, has no follow-up recorded, has a non-empty date that parses,
and was contacted at least `daysSinceContact` floor-days ago. -/
theorem followUpLoop_mem (now daysSinceContact : Int) (leads : List Lead) (l : Lead) :
    l ∈ followUpLoop now daysSinceContact leads ↔
      (l ∈ leads ∧ l.status = STATUS_CONTACTED ∧ l.follow_up_sent = [] ∧
       ∃ t, parseDateTime l.date_contacted = some t ∧
         daysSinceContact ≤ Int.fdiv (now - t) 86400) := by
  induction leads with
  | nil => simp [followUpLoop]
  | cons lead rest ih =>
    rw [followUpLoop]
    by_cases hg : lead.status = STATUS_CONTACTED ∧ lead.follow_up_sent = [] ∧
        lead.date_contacted ≠ []
    · rw [if_pos hg]
      cases hp : parseDateTime lead.date_contacted with
      | none =>
        rw [ih]
        constructor
        · rintro ⟨hm, hrest⟩
          exact ⟨List.mem_cons_of_mem _ hm, hrest⟩
        · rintro ⟨hm, hs, hf, t, ht, hd⟩
          rcases List.mem_cons.mp hm with heq | hm'
          · subst heq; rw [hp] at ht; cases ht
          · exact ⟨hm', hs, hf, t, ht, hd⟩
      | some t0 =>
        simp only [ge_iff_le]
        by_cases hd : daysSinceContact ≤ Int.fdiv (now - t0) 86400
        · rw [if_pos hd]
          constructor
          · intro hm
            rcases List.mem_cons.mp hm with heq | hm'
            · subst heq
              exact ⟨List.mem_cons_self _ _, hg.1, hg.2.1, t0, hp, hd⟩
            · obtain ⟨hm'', hrest⟩ := ih.mp hm'
              exact ⟨List.mem_cons_of_mem _ hm'', hrest⟩
          · rintro ⟨hm, hs, hf, t, ht, hdt⟩
            rcases List.mem_cons.mp hm with heq | hm'
            · exact heq ▸ List.mem_cons_self _ _
            · exact List.mem_cons_of_mem _ (ih.mpr ⟨hm', hs, hf, t, ht, hdt⟩)
        · rw [if_neg hd, ih]
          constructor
          · rintro ⟨hm, hrest⟩
            exact ⟨List.mem_cons_of_mem _ hm, hrest⟩
          · rintro ⟨hm, hs, hf, t, ht, hdt⟩
            rcases List.mem_cons.mp hm with heq | hm'
            · subst heq; rw [hp] at ht
              cases ht; exact absurd hdt hd
            · exact ⟨hm', hs, hf, t, ht, hdt⟩
    · rw [if_neg hg, ih]
      constructor
      · rintro ⟨hm, hrest⟩
        exact ⟨List.mem_cons_of_mem _ hm, hrest⟩
      · rintro ⟨hm, hs, hf, t, ht, hdt⟩
        rcases List.mem_cons.mp hm with heq | hm'
        · subst heq
          refine absurd ⟨hs, hf, ?_⟩ hg
          intro hnil
          rw [hnil] at ht
          cases ht
        · exact ⟨hm', hs, hf, t, ht, hdt⟩

/-- C2 counterexample: a lead whose response_received field is non-empty
("Yes, call me") is nevertheless returned by get_leads_for_follow_up four
days after contact — the code never consults response_received, so the
claim's "whose response_received field is empty" is false of it. -/
theorem followUp_counterexample :
    getLeadsForFollowUp (toEpochSeconds 2024 3 5 10 0 0) 2
        [[pys "Name"], c2Row] = [mkLead 2 c2Row] ∧
    (mkLead 2 c2Row).response_received = pys "Yes, call me" ∧
    pys "Yes, call me" ≠ [] := by decide

/-- C2 amended: get_leads_for_follow_up returns exactly those leads of the
sheet whose status is Contacted, whose follow_up_sent field is empty, and
whose date_contacted parses as '%Y-%m-%d %H:%M:%S' to an instant at least
days_since_contact (default 2) floor-days in the past; a lead whose
date_contacted does not parse (the empty string included) is excluded
without the call failing. response_received is not consulted. -/
theorem followUp_amended (now daysSinceContact : Int)
    (values : List (List PyStr)) (l : Lead) :
    l ∈ getLeadsForFollowUp now daysSinceContact values ↔
      (l ∈ getLeads values ∧ l.status = STATUS_CONTACTED ∧ l.follow_up_sent = [] ∧
       ∃ t, parseDateTime l.date_contacted = some t ∧
         daysSinceContact ≤ Int.fdiv (now - t) 86400) :=
  followUpLoop_mem now daysSinceContact (getLeads values) l

/-- C5 counterexample: calling update_lead_status(2, "Responded") with the
notes argument omitted (Python default "") overwrites the previously stored
note "keep me" with the empty string — the omitted optional field does not
keep its previous value. -/
theorem updateLead_counterexample :
    updateLeadStatus c5Sheet 2 (pys "Responded") [] (pys "2024-03-05 11:00:00")
        2 (COLUMN_MAPPING "notes") = [] ∧
    c5Sheet 2 (COLUMN_MAPPING "notes") = pys "keep me" ∧
    pys "keep me" ≠ [] := by decide

/-- C5 amended: update_lead_status takes only (row, status, notes="") and on
every call writes both the status and the notes cell of that row (an
omitted notes argument therefore overwrites the stored notes with the empty
string); it writes the current timestamp into date_contacted exactly when
the new status is Contacted; the response_received and follow_up_sent cells
of the row, its remaining cells, and every other row are left untouched. -/
theorem updateLead_amended (sh : Sheet) (rowNumber : Nat)
    (status notes nowStr : PyStr) :
    (updateLeadStatus sh rowNumber status notes nowStr rowNumber
        (COLUMN_MAPPING "status") = status) ∧
    (updateLeadStatus sh rowNumber status notes nowStr rowNumber
        (COLUMN_MAPPING "notes") = notes) ∧
    (updateLeadStatus sh rowNumber status notes nowStr rowNumber
        (COLUMN_MAPPING "date_contacted") =
      if status = STATUS_CONTACTED then nowStr
      else sh rowNumber (COLUMN_MAPPING "date_contacted")) ∧
    (updateLeadStatus sh rowNumber status notes nowStr rowNumber
        (COLUMN_MAPPING "response_received") =
      sh rowNumber (COLUMN_MAPPING "response_received")) ∧
    (updateLeadStatus sh rowNumber status notes nowStr rowNumber
        (COLUMN_MAPPING "follow_up_sent") =
      sh rowNumber (COLUMN_MAPPING "follow_up_sent")) ∧
    (updateLeadStatus sh rowNumber status notes nowStr rowNumber
        (COLUMN_MAPPING "name") = sh rowNumber (COLUMN_MAPPING "name")) ∧
    (updateLeadStatus sh rowNumber status notes nowStr rowNumber
        (COLUMN_MAPPING "email") = sh rowNumber (COLUMN_MAPPING "email")) ∧
    (updateLeadStatus sh rowNumber status notes nowStr rowNumber
        (COLUMN_MAPPING "phone") = sh rowNumber (COLUMN_MAPPING "phone")) ∧
    (∀ r c, r ≠ rowNumber →
      updateLeadStatus sh rowNumber status notes nowStr r c = sh r c) := by
  by_cases hs : status = STATUS_CONTACTED <;>
    refine ⟨?_, ?_, ?_, ?_, ?_, ?_, ?_, ?_,
      fun r c hr => by simp [updateLeadStatus, writeCell, COLUMN_MAPPING, hs, hr]⟩ <;>
    simp [updateLeadStatus, writeCell, COLUMN_MAPPING, hs]

/-- The get_leads loop is the enumerate-filter-map of the data rows: each
kept row carries its absolute position. -/
theorem getLeadsLoop_eq (rows : List (List PyStr)) : ∀ (start : Nat),
    getLeadsLoop start rows =
      ((List.enumFrom start rows).filter (fun p => 3 ≤ p.2.length)).map
        (fun p => mkLead p.1 p.2) := by
  induction rows with
  | nil => intro start; rfl
  | cons r rest ih =>
    intro start
    by_cases h : 3 ≤ r.length
    · simp [getLeadsLoop, List.enumFrom, h, ih]
    · simp [getLeadsLoop, List.enumFrom, h, ih]

/-- C10: get_leads silently omits every data row with fewer than 3 cells,
and every returned lead's row_number is that lead's absolute sheet position
(header is row 1, the first data row is row 2): the result is the
enumerate-from-2 of the data rows, filtered to rows of at least 3 cells,
so an omitted short row leaves a gap in the row_number sequence instead of
shifting later leads, and each returned lead is rebuilt from the sheet row
its row_number points at. -/
theorem getLeads_spec (values : List (List PyStr)) :
    (getLeads values =
      ((List.enumFrom 2 values.tail).filter (fun p => 3 ≤ p.2.length)).map
        (fun p => mkLead p.1 p.2)) ∧
    (∀ l ∈ getLeads values, 2 ≤ l.row_number ∧
      ∃ row, values.tail[l.row_number - 2]? = some row ∧ 3 ≤ row.length ∧
        l = mkLead l.row_number row) := by
  have heq : getLeads values =
      ((List.enumFrom 2 values.tail).filter (fun p => 3 ≤ p.2.length)).map
        (fun p => mkLead p.1 p.2) := by
    cases values with
    | nil => rfl
    | cons headers dataRows => exact getLeadsLoop_eq dataRows 2
  refine ⟨heq, ?_⟩
  intro l hl
  rw [heq] at hl
  obtain ⟨p, hp, hpl⟩ := List.mem_map.mp hl
  obtain ⟨hmem, hlen⟩ := List.mem_filter.mp hp
  obtain ⟨p1, p2⟩ := p
  have hrow : l.row_number = p1 := by rw [← hpl]; rfl
  obtain ⟨hle, hget⟩ := List.mk_mem_enumFrom_iff_le_and_getElem?_sub.mp hmem
  rw [hrow]
  refine ⟨hle, p2, hget, by simpa using hlen, ?_⟩
  rw [← hpl]

/-- C4: create_backup runs first and serializes the full current lead set —
in every run whose backup succeeds the event trace starts with the backup
of the whole pre-run store, before any provider call or store write — and
when backup creation fails the run aborts (the exception propagates, no
statistics are returned) with the store untouched and no lead processed
(an empty event trace: no provider was contacted, nothing was written). -/
theorem backup_first (env : Env) (emailOnly smsOnly : Bool) (st : SysState) :
    (env.backupOk = false →
      (processNewLeads env emailOnly smsOnly st).result = none ∧
      (processNewLeads env emailOnly smsOnly st).state = st ∧
      (processNewLeads env emailOnly smsOnly st).events = []) ∧
    (env.backupOk = true →
      ∃ rest, (processNewLeads env emailOnly smsOnly st).events =
        Event.backup st.store :: rest) := by
  constructor
  · intro h
    simp [processNewLeads, createBackup, h]
  · intro h
    simp only [processNewLeads, createBackup, h, if_true]
    by_cases hn : getLeadsByStatus STATUS_NEW st.store = []
    · exact ⟨[], by simp [hn]⟩
    · exact ⟨(processNewLeadsLoop env emailOnly smsOnly
        (getLeadsByStatus STATUS_NEW st.store) st ⟨0, 0, 0, 0⟩).2.2, by simp [hn]⟩

/-- An email send whose rate check passes and whose provider succeeds
returns true and increments the window counter. -/
theorem sendEmail_success (now : Nat) (toEmail : PyStr) (nameOpt : Option PyStr)
    (st : RateState) (h : (checkRateLimit EMAIL_RATE_LIMIT now st).1 = true) :
    sendEmail true now toEmail "initial" nameOpt st =
      ⟨true, ⟨(checkRateLimit EMAIL_RATE_LIMIT now st).2.sent_count + 1,
              (checkRateLimit EMAIL_RATE_LIMIT now st).2.last_reset⟩, true⟩ := by
  simp [sendEmail, h, EMAIL_TEMPLATES]

/-- An SMS send whose rate check passes, whose number validates and whose
provider succeeds returns true and increments the window counter. -/
theorem sendSMS_success (now : Nat) (toPhone f : PyStr) (nameOpt : Option PyStr)
    (st : RateState) (h : (checkRateLimit SMS_RATE_LIMIT now st).1 = true)
    (hv : validatePhoneNumber toPhone = some f) :
    sendSMS true now toPhone "initial" nameOpt st =
      ⟨true, ⟨(checkRateLimit SMS_RATE_LIMIT now st).2.sent_count + 1,
              (checkRateLimit SMS_RATE_LIMIT now st).2.last_reset⟩, true⟩ := by
  simp [sendSMS, h, hv, SMS_TEMPLATES]

/-- C1: a new-lead pass over exactly two New leads — one with only an email
address, one with only a (valid) phone number — with both rate checks
passing and both provider calls succeeding returns the statistics
{processed: 2, email_sent: 1, sms_sent: 1, errors: 0} and leaves both
leads marked Contacted in the store. -/
theorem process_two_leads (l1 l2 : Lead) (env : Env) (st : SysState)
    (hstore : st.store = [l1, l2])
    (h1s : l1.status = STATUS_NEW) (h1e : l1.email ≠ []) (h1p : l1.phone = [])
    (h2s : l2.status = STATUS_NEW) (h2e : l2.email = []) (h2p : l2.phone ≠ [])
    (h2v : ∃ f, validatePhoneNumber l2.phone = some f)
    (hb : env.backupOk = true) (hep : env.emailProviderOk = true)
    (hsp : env.smsProviderOk = true)
    (hre : (checkRateLimit EMAIL_RATE_LIMIT env.now st.emailRate).1 = true)
    (hrs : (checkRateLimit SMS_RATE_LIMIT env.now st.smsRate).1 = true) :
    (processNewLeads env false false st).result =
      some { processed := 2, email_sent := 1, sms_sent := 1, errors := 0 } ∧
    ∀ l ∈ (processNewLeads env false false st).state.store,
      l.status = STATUS_CONTACTED := by
  obtain ⟨f, hv⟩ := h2v
  have hmail := sendEmail_success env.now l1.email (some l1.name) st.emailRate hre
  have hsms := sendSMS_success env.now l2.phone f (some l2.name) st.smsRate hrs hv
  have hleads : getLeadsByStatus STATUS_NEW st.store = [l1, l2] := by
    simp [getLeadsByStatus, hstore, h1s, h2s]
  simp only [processNewLeads, createBackup, hb, if_true, hleads]
  simp only [processNewLeadsLoop, processLead, hep, hsp, h1e, h1p, h2e, h2p,
    not_false_eq_true, and_true, true_and, ne_eq, not_true_eq_false, false_and,
    if_true, if_false, reduceCtorEq, ite_false, ite_true, hmail, hsms,
    List.cons_ne_self, hstore]
  constructor
  · simp [hmail, hsms, h1e, h1p, h2e, h2p]
  · intro l hl
    simp only [markContacted, List.map_cons, List.map_nil] at hl
    rcases List.mem_cons.mp hl with hh | hl2
    · subst hh
      split_ifs <;> simp_all
    · rcases List.mem_cons.mp hl2 with hh | hh
      · subst hh
        split_ifs <;> simp_all
      · exact absurd hh (List.not_mem_nil l)

/-- C1 witness: the two-lead pass at a concrete instantiation. -/
theorem process_two_leads_witness :
    (processNewLeads wEnv false false wState).result =
      some { processed := 2, email_sent := 1, sms_sent := 1, errors := 0 } ∧
    ∀ l ∈ (processNewLeads wEnv false false wState).state.store,
      l.status = STATUS_CONTACTED :=
  process_two_leads wLead1 wLead2 wEnv wState rfl rfl (by decide) rfl rfl
    (by decide) (by decide) ⟨pys "+14155551234", by decide⟩ rfl rfl rfl
    (by decide) (by decide)
